import Mathlib

/-
  Verification development for the logspout-sumologic adapter
  (sumologic.go).  The Go source is shallowly embedded: pure helpers
  become Lean functions, the nil-pointer dereference that Go would
  panic on is modelled by `Option` (with `none` standing for the
  panic), and the fragment of the Go standard library the adapter
  relies on (strconv.ParseInt, strconv.FormatInt, html/template,
  time formatting) is modelled explicitly below, restricted to the
  behaviour the adapter exercises.
-/

namespace Sumologic

/-! ## Data model

Shallow embedding of the record and configuration types used by the
adapter: `router.Message` (with its `docker.Container` descriptor and
nested `docker.Config`), the adapter's `Config`, and the JSON body
types `Data` / `ContainerData`.  Go nil pointers become `Option`;
`time.Time` is represented by its count of nanoseconds since the Unix
epoch (the only aspects the adapter uses are `UnixNano` and RFC3339
formatting, both functions of that count for UTC times). -/

/-- Model of the fields of `docker.Config` read by the adapter. -/
structure DockerConfig where
  Image : String
  Hostname : String
deriving DecidableEq

/-- Model of the fields of `docker.Container` read by the adapter;
`Config` is a Go pointer, hence `Option`. -/
structure DockerContainer where
  Name : String
  ID : String
  Config : Option DockerConfig
deriving DecidableEq

/-- Model of `router.Message`: payload text, emission time, source
tag, and the container descriptor (a Go pointer, hence `Option`).
`TimeNs` is the true offset of the emission time from the Unix epoch
in nanoseconds, as an unbounded integer: Go's `time.Time` stores
int64 *seconds*, a range far wider than int64 nanoseconds, so the
time itself is exact; the int64 wrap-around of `Time.UnixNano()` is
applied at the call site in `buildData` (see `wrapInt64`). -/
structure Message where
  Data : String
  TimeNs : Int
  Source : String
  Container : Option DockerContainer
deriving DecidableEq

/-- The adapter's `Config` struct (sumologic.go). -/
structure Config where
  endPoint : String
  sourceName : String
  sourceCategory : String
  sourceHost : String
  retries : Int
  timeout : Int
  backoff : Int
deriving DecidableEq

/-- The `container` object of the JSON body (`ContainerData` in
sumologic.go). -/
structure ContainerData where
  Time : String
  Source : String
  Name : String
  ID : String
  Image : String
  Hostname : String
deriving DecidableEq

/-- The JSON body (`Data` in sumologic.go). -/
structure Data where
  Message : String
  Container : ContainerData
  Timestamp : String
deriving DecidableEq

/-! ## Modelled Go standard library fragments -/

/-- Numeric value of a decimal digit character. -/
def digitVal (c : Char) : Nat := c.toNat - 48

/-- Value of a list of decimal digit characters, most significant
first. -/
def digitsToNat (ds : List Char) : Nat :=
  ds.foldl (fun a c => a * 10 + digitVal c) 0

/-- Model of Go `strconv.ParseInt(s, 10, 64)`: an optional sign
followed by at least one decimal digit, rejected when the value falls
outside the int64 range.  `none` models a non-nil error (both syntax
and range errors, which the caller treats alike). -/
def parseInt (s : String) : Option Int :=
  match s.data with
  | [] => none
  | c :: cs =>
    let signed : Bool × List Char :=
      if c = '-' then (true, cs)
      else if c = '+' then (false, cs)
      else (false, c :: cs)
    if signed.2.isEmpty then none
    else if signed.2.all Char.isDigit then
      let n := digitsToNat signed.2
      if signed.1 then
        if n ≤ 9223372036854775808 then some (-(n : Int)) else none
      else
        if n ≤ 9223372036854775807 then some ((n : Int)) else none
    else none

/-- Go integer division truncates toward zero; `Int.tdiv` has exactly
that rounding. -/
def goDiv (a b : Int) : Int := Int.tdiv a b

/-- Reduction of an integer into the int64 range by two's-complement
wrap-around.  Go's `Time.UnixNano()` computes seconds times 10^9 plus
nanoseconds in int64 arithmetic, which wraps: since wrapping is a ring
homomorphism, the result is the wrap of the exact nanosecond count.
The repository's own test fixture expects the wrapped timestamp
`"-6795364578871"` for the zero `time.Time` (year 1), whose exact
millisecond count would be about -62135596800000. -/
def wrapInt64 (x : Int) : Int :=
  (x + 9223372036854775808) % 18446744073709551616 - 9223372036854775808

/-- The decimal digit character for `n % 10`-sized values. -/
def digitChar (n : Nat) : Char := Char.ofNat (48 + n)

/-- Decimal digits of `n`, most significant first; the first argument
is fuel (any fuel above `n` is enough, and callers supply `n + 1`). -/
def natDigitsF : Nat → Nat → List Char
  | 0, _ => []
  | fuel + 1, n =>
    if n < 10 then [digitChar n]
    else natDigitsF fuel (n / 10) ++ [digitChar (n % 10)]

/-- Decimal representation of a natural number, as produced by Go
`strconv.FormatInt` for non-negative values. -/
def goFormatNat (n : Nat) : String := String.mk (natDigitsF (n + 1) n)

/-- Model of Go `strconv.FormatInt(i, 10)`: an optional leading minus
sign followed by decimal digits. -/
def goFormatInt (i : Int) : String :=
  if i < 0 then "-" ++ goFormatNat i.natAbs else goFormatNat i.natAbs

/-- Left-pad to two digits. -/
def pad2 (n : Nat) : String :=
  if n < 10 then "0" ++ goFormatNat n else goFormatNat n

/-- Left-pad to four digits. -/
def pad4 (n : Nat) : String :=
  if n < 10 then "000" ++ goFormatNat n
  else if n < 100 then "00" ++ goFormatNat n
  else if n < 1000 then "0" ++ goFormatNat n
  else goFormatNat n

/-- Civil date (year, month, day) from a count of days since
1970-01-01, proleptic Gregorian calendar. -/
def civilFromDays (z : Int) : Int × Nat × Nat :=
  let z1 := z + 719468
  let era := Int.fdiv z1 146097
  let doe := (z1 - era * 146097).toNat
  let yoe := (doe - doe / 1460 + doe / 36524 - doe / 146096) / 365
  let y := (yoe : Int) + era * 400
  let doy := doe - (365 * yoe + yoe / 4 - yoe / 100)
  let mp := (5 * doy + 2) / 153
  let d := doy - (153 * mp + 2) / 5 + 1
  let m := if mp < 10 then mp + 3 else mp - 9
  (if m ≤ 2 then y + 1 else y, m, d)

/-- Model of Go `time.Time.Format(time.RFC3339)` for a UTC time given
as nanoseconds since the Unix epoch (second precision, `Z` offset, as
the adapter's UTC times format). -/
def rfc3339 (ns : Int) : String :=
  let s := Int.fdiv ns 1000000000
  let days := Int.fdiv s 86400
  let secs := (s - days * 86400).toNat
  let ymd := civilFromDays days
  let yStr :=
    if ymd.1 < 0 then "-" ++ pad4 ymd.1.natAbs else pad4 ymd.1.toNat
  yStr ++ "-" ++ pad2 ymd.2.1 ++ "-" ++ pad2 ymd.2.2 ++ "T" ++
    pad2 (secs / 3600) ++ ":" ++ pad2 (secs % 3600 / 60) ++ ":" ++
    pad2 (secs % 60) ++ "Z"

/-! ## ConfigResolver (getopt / getintopt / buildConfig) -/

/-- `getopt` from sumologic.go: the override if non-empty, else the
default.  The Go function reads the environment variable itself; here
the looked-up value is the first argument (Go `os.Getenv` yields `""`
for an unset variable, which is indistinguishable from an empty one,
exactly as in the source). -/
def getopt (value : String) (dfault : String) : String :=
  if value = "" then dfault else value

/-- `getintopt` from sumologic.go.  The second component of the result
records whether a parse failure was logged (`log...Error("Failed to
parse")`); the Go function's return value is the first component. -/
def getintopt (value : String) (dfault : Int) : Int × Bool :=
  if value = "" then (dfault, false)
  else
    match parseInt value with
    | none => (dfault, true)
    | some n => (n, false)

/-- The environment-variable overrides consulted by `buildConfig`,
gathered into a record (Go reads them through `os.Getenv`; an absent
variable reads as `""`). -/
structure Overrides where
  endpoint : String
  sourceName : String
  sourceCategory : String
  sourceHost : String
  retries : String
  backoff : String
  timeout : String
deriving DecidableEq

/-- `buildConfig` from sumologic.go, with the environment made
explicit; the second argument is `route.Address`. -/
def buildConfig (o : Overrides) (routeAddress : String) : Config :=
  { endPoint := getopt o.endpoint routeAddress
    sourceName := getopt o.sourceName "\x7b\x7b.Container.Name\x7d\x7d"
    sourceCategory := getopt o.sourceCategory ""
    sourceHost := getopt o.sourceHost "\x7b\x7b.Container.Config.Hostname\x7d\x7d"
    retries := (getintopt o.retries 2).1
    backoff := (getintopt o.backoff 10).1
    timeout := (getintopt o.timeout 10000).1 }

/-! ## PayloadBuilder: buildData -/

/-- `buildData` from sumologic.go.  The Go function dereferences
`msg.Container` and `msg.Container.Config`; when either pointer is nil
it panics with a nil-pointer dereference, modelled here by `none`.
The timestamp is `strconv.FormatInt(msg.Time.UTC().UnixNano()/1000000, 10)`:
`UnixNano` is int64 arithmetic and wraps for times outside the int64
nanosecond range (before 1677 or after 2262), hence `wrapInt64`;
`time.Time.Format` works on the exact time, hence `rfc3339` on the
unwrapped count. -/
def buildData (msg : Message) : Option Data :=
  match msg.Container with
  | none => none
  | some c =>
    match c.Config with
    | none => none
    | some cc =>
      some
        { Container :=
            { Source := msg.Source
              Time := rfc3339 msg.TimeNs
              Name := c.Name
              ID := c.ID
              Image := cc.Image
              Hostname := cc.Hostname }
          Message := msg.Data
          Timestamp := goFormatInt (goDiv (wrapInt64 msg.TimeNs) 1000000) }

/-! ## TemplateRenderer

`renderTemplate` in sumologic.go calls Go's `html/template` package on
an arbitrary template text and executes it against the message.  The
library is modelled here for the fragment the adapter exercises:
literal text plus field-path actions of the shape
`.Ident.Ident...` between double-brace delimiters, evaluated by
reflection over the message (an unknown field, or a field reached
through a nil pointer, is an execution-time error).  `html/template`
additionally HTML-escapes every substituted value.  Printing a whole
non-string sub-struct and the other template directives are outside
the model and are mapped to errors. -/

/-- A parsed template node: literal text or a field-path action. -/
inductive Node where
  | text (s : String)
  | field (path : List String)
deriving DecidableEq

/-- Splits the input at the first occurrence of the double-brace
action opener: returns the text before it and, when an opener exists,
the remainder after it. -/
def splitBrace : List Char → List Char × Option (List Char)
  | [] => ([], none)
  | [c] => ([c], none)
  | c1 :: c2 :: rest =>
    if c1 = '\x7b' && c2 = '\x7b' then ([], some rest)
    else
      let p := splitBrace (c2 :: rest)
      (c1 :: p.1, p.2)

/-- Whether the text contains a template-action opener (two adjacent
opening braces) — i.e. whether it contains any template directive. -/
def hasDirective : List Char → Bool
  | c1 :: c2 :: rest => (c1 = '\x7b' && c2 = '\x7b') || hasDirective (c2 :: rest)
  | _ => false

/-- Whether the text contains an opening angle bracket, the only
character on which the library's HTML context machine leaves the text
state. -/
def hasLt : List Char → Bool
  | [] => false
  | c :: rest => (c = '<') || hasLt rest

/-- A character allowed inside a field identifier. -/
def isIdentChar (c : Char) : Bool := c.isAlphanum || c = '_'

/-- Parses a chain `.Ident.Ident...`, fuelled (consumed characters
bound the recursion; callers supply `length + 1`). -/
def parseFieldF : Nat → List Char → List String × List Char
  | 0, cs => ([], cs)
  | fuel + 1, cs =>
    match cs with
    | '.' :: cs2 =>
      let id := cs2.takeWhile isIdentChar
      if id.isEmpty then ([], cs)
      else
        let p := parseFieldF fuel (cs2.dropWhile isIdentChar)
        (String.mk id :: p.1, p.2)
    | _ => ([], cs)

/-- Parses one action body (the part after the opening delimiter):
optional spaces, a field path, optional spaces, and the closing
delimiter.  Anything else is a parse error, as it is for the template
library (an exhausted input is its unclosed-action error). -/
def parseAction (cs : List Char) : Except String (Node × List Char) :=
  let cs1 := cs.dropWhile (fun c => c = ' ')
  match cs1 with
  | '.' :: _ =>
    let p := parseFieldF (cs1.length + 1) cs1
    if p.1.isEmpty then Except.error "unrecognized action"
    else
      match p.2.dropWhile (fun c => c = ' ') with
      | '\x7d' :: '\x7d' :: rest => Except.ok (Node.field p.1, rest)
      | [] => Except.error "unexpected unclosed action in command"
      | _ => Except.error "bad character in action"
  | [] => Except.error "unexpected unclosed action in command"
  | _ => Except.error "unrecognized action"

/-- Parses a whole template into nodes, fuelled (each recursion step
consumes the two-character opener, so `length + 1` fuel always
suffices and the zero-fuel branch is unreachable for the fuel callers
supply). -/
def parseNodesF : Nat → List Char → Except String (List Node)
  | 0, _ => Except.error "template too deep"
  | fuel + 1, cs =>
    match splitBrace cs with
    | (txt, none) => Except.ok [Node.text (String.mk txt)]
    | (txt, some rest) =>
      match parseAction rest with
      | Except.error e => Except.error e
      | Except.ok (node, rem) =>
        match parseNodesF fuel rem with
        | Except.error e => Except.error e
        | Except.ok nodes => Except.ok (Node.text (String.mk txt) :: node :: nodes)

/-- Model of `template.New("info").Parse(text)`. -/
def parseTemplate (s : String) : Except String (List Node) :=
  parseNodesF (s.length + 1) s.data

/-- HTML escaping of one character as performed by `html/template`
when substituting a value (ampersand, angle brackets, double and
single quote). -/
def htmlEscapeChar (c : Char) : String :=
  if c = '&' then "&amp;"
  else if c = '<' then "&lt;"
  else if c = '>' then "&gt;"
  else if c.toNat = 34 then "&#34;"
  else if c.toNat = 39 then "&#39;"
  else String.mk [c]

/-- HTML escaping of a substituted value. -/
def htmlEscape (s : String) : String :=
  String.join (s.data.map htmlEscapeChar)

/-- The HTML elements whose content the template library treats
specially (raw-text / RCDATA elements). -/
inductive HtmlElem where
  | plain
  | script
  | style
  | textarea
  | title
deriving DecidableEq

/-- The lowercase name of a special element, used to find its end
tag. -/
def elemName : HtmlElem → List Char
  | HtmlElem.plain => []
  | HtmlElem.script => "script".data
  | HtmlElem.style => "style".data
  | HtmlElem.textarea => "textarea".data
  | HtmlElem.title => "title".data

/-- Classify an eaten (lowercased) tag name. -/
def classifyElem (name : List Char) : HtmlElem :=
  if name = "script".data then HtmlElem.script
  else if name = "style".data then HtmlElem.style
  else if name = "textarea".data then HtmlElem.textarea
  else if name = "title".data then HtmlElem.title
  else HtmlElem.plain

/-- The HTML context tracked by the template library's
contextual-escape analysis, coarsened to what decides the end-of-
template text/non-text distinction: plain text; inside a tag (with an
optionally open quoted attribute value, which absorbs `>`); inside the
raw content of a special element until its end tag; inside an HTML
comment.  The library's finer in-tag states (attribute name/value,
URL, JS, CSS) are all non-text and are collapsed into these. -/
inductive HtmlContext where
  | text
  | tag (e : HtmlElem) (quote : Option Char)
  | special (e : HtmlElem)
  | comment
deriving DecidableEq

/-- One pass of the library's context machine over literal template
text (transition.go of html/template, coarsened as described at
`HtmlContext`).  In text state only `<` changes context: `<!--` opens
a comment, `<` or `</` followed by an ASCII letter opens a tag (tag
names lowercased for classification, Go `eatTagName`), any other `<`
stays text.  In a tag, `>` outside a quoted attribute value closes
it, into the element's raw content for special elements; a special
element's content ends at its `</name` end tag; a comment ends at
`-->`.  Fuelled: every step consumes at least one character, so
`length + 1` fuel always suffices. -/
def scanHtmlF : Nat → HtmlContext → List Char → HtmlContext
  | 0, st, _ => st
  | fuel + 1, st, cs =>
    match st, cs with
    | _, [] => st
    | HtmlContext.text, c :: rest =>
      if c = '<' then
        match rest with
        | '!' :: '-' :: '-' :: r => scanHtmlF fuel HtmlContext.comment r
        | '/' :: r =>
          if (r.headD ' ').isAlpha then
            scanHtmlF fuel (HtmlContext.tag HtmlElem.plain none)
              (r.dropWhile Char.isAlphanum)
          else scanHtmlF fuel HtmlContext.text ('/' :: r)
        | r =>
          if (r.headD ' ').isAlpha then
            scanHtmlF fuel
              (HtmlContext.tag
                (classifyElem ((r.takeWhile Char.isAlphanum).map Char.toLower)) none)
              (r.dropWhile Char.isAlphanum)
          else scanHtmlF fuel HtmlContext.text r
      else scanHtmlF fuel HtmlContext.text rest
    | HtmlContext.tag e q, c :: rest =>
      match q with
      | some qc =>
        if c = qc then scanHtmlF fuel (HtmlContext.tag e none) rest
        else scanHtmlF fuel (HtmlContext.tag e (some qc)) rest
      | none =>
        if c.toNat = 34 || c.toNat = 39 then
          scanHtmlF fuel (HtmlContext.tag e (some c)) rest
        else if c = '>' then
          match e with
          | HtmlElem.plain => scanHtmlF fuel HtmlContext.text rest
          | e2 => scanHtmlF fuel (HtmlContext.special e2) rest
        else scanHtmlF fuel (HtmlContext.tag e none) rest
    | HtmlContext.special e, cs2 =>
      match cs2 with
      | '<' :: '/' :: r =>
        if (elemName e).isPrefixOf (r.map Char.toLower) then
          scanHtmlF fuel HtmlContext.text (r.drop (elemName e).length)
        else scanHtmlF fuel (HtmlContext.special e) r
      | _ :: rest => scanHtmlF fuel (HtmlContext.special e) rest
      | [] => st
    | HtmlContext.comment, cs2 =>
      match cs2 with
      | '-' :: '-' :: '>' :: r => scanHtmlF fuel HtmlContext.text r
      | _ :: rest => scanHtmlF fuel HtmlContext.comment rest
      | [] => st

/-- The HTML context after the whole template: literal text shifts the
context through the machine above; a value action leaves the context
unchanged (the library attaches a context-appropriate escaper to it).
Actions inside comments, and the comment stripping the library applies
to emitted literal text, are outside the model; no theorem below
touches a template containing a comment. -/
def escapeEnd (st : HtmlContext) : List Node → HtmlContext
  | [] => st
  | Node.text s :: rest => escapeEnd (scanHtmlF (s.length + 1) st s.data) rest
  | Node.field _ :: rest => escapeEnd st rest

/-- The end-of-template check of the contextual-escape analysis that
the library runs at the first `Execute` (escape.go): a template whose
end context is not the text state is rejected with `ErrEndContext`
before anything is written. -/
def escapeCheck (nodes : List Node) : Option String :=
  match escapeEnd HtmlContext.text nodes with
  | HtmlContext.text => none
  | _ => some "ends in a non-text context"

/-- Reflection-style field lookup against the message, as the
template library performs when executing a field action.  A path into
a nil pointer or an unknown field is an execution error (the library
reports e.g. `can't evaluate field Name in type *docker.Container`). -/
def evalPath (msg : Message) : List String → Except String String
  | ["Data"] => Except.ok msg.Data
  | ["Source"] => Except.ok msg.Source
  | "Container" :: rest =>
    match msg.Container, rest with
    | none, _ => Except.error "cannot evaluate field in type *docker.Container"
    | some c, ["Name"] => Except.ok c.Name
    | some c, ["ID"] => Except.ok c.ID
    | some c, "Config" :: rest2 =>
      match c.Config, rest2 with
      | none, _ => Except.error "nil pointer evaluating *docker.Config"
      | some cc, ["Image"] => Except.ok cc.Image
      | some cc, ["Hostname"] => Except.ok cc.Hostname
      | some _, _ => Except.error "cannot evaluate field"
    | some _, _ => Except.error "cannot evaluate field"
  | _ => Except.error "cannot evaluate field"

/-- Executes parsed nodes against the message, concatenating literal
text and HTML-escaped substituted values; the first evaluation error
aborts execution, as `tmpl.Execute` does. -/
def executeNodes (msg : Message) : List Node → Except String String
  | [] => Except.ok ""
  | Node.text s :: rest =>
    match executeNodes msg rest with
    | Except.error e => Except.error e
    | Except.ok r => Except.ok (s ++ r)
  | Node.field p :: rest =>
    match evalPath msg p with
    | Except.error e => Except.error e
    | Except.ok v =>
      match executeNodes msg rest with
      | Except.error e => Except.error e
      | Except.ok r => Except.ok (htmlEscape v ++ r)

/-- The two failure kinds of rendering: a parse error (malformed
template text) or an evaluation error (well-formed template that fails
against this message). -/
inductive RenderError where
  | parseError (e : String)
  | evalError (e : String)
deriving DecidableEq

/-- `renderTemplate` from sumologic.go: parse, then execute into a
buffer; on a parse error the wrapped error is returned with an empty
string, on an execution error the error is returned with an empty
string (the Go function returns the literal `""`, not the partially
written buffer).  Execution of an `html/template` first runs the
contextual-escape analysis (`escapeCheck`), whose end-context error is
returned by `Execute` with nothing written; only then are the nodes
evaluated. -/
def renderTemplate (msg : Message) (text : String) : String × Option RenderError :=
  match parseTemplate text with
  | Except.error e =>
    ("", some (RenderError.parseError
      ("Couldn't parse sumologic source template. " ++ e)))
  | Except.ok nodes =>
    match escapeCheck nodes with
    | some e => ("", some (RenderError.evalError e))
    | none =>
      match executeNodes msg nodes with
      | Except.error e => ("", some (RenderError.evalError e))
      | Except.ok s => (s, none)

/-! ## PayloadBuilder: buildHeaders -/

/-- One `if err == nil then headers.Add(key, value)` step of
`buildHeaders`, as a list of added header entries. -/
def addIfOk (key : String) (r : String × Option RenderError) : List (String × String) :=
  match r with
  | (v, none) => [(key, v)]
  | (_, some _) => []

/-- `buildHeaders` from sumologic.go: each of the name and host
templates is rendered and its header added only when rendering
returned no error; the category template is considered only when the
configured category is non-empty, and its header is likewise added
only on success.  `http.Header` is modelled as the list of added
(key, value) pairs (insertion order irrelevant per the spec). -/
def buildHeaders (msg : Message) (config : Config) : List (String × String) :=
  addIfOk "X-Sumo-Name" (renderTemplate msg config.sourceName) ++
  addIfOk "X-Sumo-Host" (renderTemplate msg config.sourceHost) ++
  (if config.sourceCategory = "" then []
   else addIfOk "X-Sumo-Category" (renderTemplate msg config.sourceCategory))

/-! ## DeliveryClient: outcome classification in sendLog -/

/-- Result of the HTTP POST as seen by `sendLog`: either a transport
failure (after the client's internal retries) or a response carrying a
status code. -/
inductive PostResult where
  | failure
  | response (statusCode : Nat)
deriving DecidableEq

/-- The per-record outcome `sendLog` reports via its logging. -/
inductive DeliveryOutcome where
  | serializationError
  | networkError
  | nonSuccessStatus (code : Nat)
  | success
deriving DecidableEq

/-- `http.StatusOK`. -/
def statusOK : Nat := 200

/-- Outcome classification of `sendLog` (sumologic.go): a JSON
marshalling failure aborts before any network attempt; a failed POST
is a network error; a received response is reported as a non-success
status error exactly when `req.StatusCode != http.StatusOK`, and is
a silent success otherwise.  The marshalling and transport results
are parameters because they are produced by external collaborators. -/
def sendLogOutcome (marshalOk : Bool) (post : PostResult) : DeliveryOutcome :=
  if marshalOk = false then DeliveryOutcome.serializationError
  else
    match post with
    | PostResult.failure => DeliveryOutcome.networkError
    | PostResult.response code =>
      if code ≠ statusOK then DeliveryOutcome.nonSuccessStatus code
      else DeliveryOutcome.success

/-! ## Concrete records and configurations used in the theorems -/

/-- A message with no container descriptor (Go nil pointer). -/
def msgNoContainer : Message := { Data := "", TimeNs := 0, Source := "", Container := none }

/-- A message whose container descriptor is present but carries a nil
nested `Config` (the zero value `docker.Container`). -/
def msgNilConfig : Message :=
  { Data := "", TimeNs := 0, Source := ""
    Container := some { Name := "", ID := "", Config := none } }

/-- A message with a complete but all-empty container descriptor. -/
def msgZero : Message :=
  { Data := "", TimeNs := 0, Source := ""
    Container := some { Name := "", ID := ""
                        Config := some { Image := "", Hostname := "" } } }

/-- A message emitted at 2018-01-02T13:00:00Z with a full container
descriptor. -/
def msg2018 : Message :=
  { Data := "Some data.", TimeNs := 1514898000000000000, Source := "stdout"
    Container := some { Name := "box", ID := "id0"
                        Config := some { Image := "img", Hostname := "example.com" } } }

/-- The body `buildData` derives from `msg2018`. -/
def d2018 : Data :=
  { Message := "Some data."
    Container := { Time := "2018-01-02T13:00:00Z", Source := "stdout"
                   Name := "box", ID := "id0", Image := "img"
                   Hostname := "example.com" }
    Timestamp := "1514898000000" }

/-- A message carrying the zero `time.Time` (0001-01-01T00:00:00Z,
i.e. -62135596800 seconds from the epoch) with a complete all-empty
container descriptor — the shape whose body the repository's test
fixture `mkExpectedBody` describes. -/
def msgYear1 : Message :=
  { Data := "", TimeNs := -62135596800000000000, Source := ""
    Container := some { Name := "", ID := ""
                        Config := some { Image := "", Hostname := "" } } }

/-- A message whose container name contains an HTML-special
character. -/
def msgAmp : Message :=
  { Data := "", TimeNs := 0, Source := ""
    Container := some { Name := "a&b", ID := "", Config := none } }

/-- Overrides with every environment variable unset. -/
def noOverrides : Overrides :=
  { endpoint := "", sourceName := "", sourceCategory := "", sourceHost := ""
    retries := "", backoff := "", timeout := "" }

/-- The configuration resolved with no overrides and an empty route
address (as in the repository's tests). -/
def defaultConfig : Config := buildConfig noOverrides ""

/-- A configuration whose source-name template is the container-name
field action and whose other templates are empty. -/
def cfgNameTemplate : Config :=
  { endPoint := "", sourceName := "\x7b\x7b.Container.Name\x7d\x7d"
    sourceCategory := "", sourceHost := ""
    retries := 2, timeout := 10000, backoff := 10 }

/-! ## Helper lemmas -/

/-- A directive-free text is returned whole by the brace scanner. -/
theorem splitBrace_no_directive :
    ∀ cs : List Char, hasDirective cs = false → splitBrace cs = (cs, none) := by
  intro cs
  induction cs with
  | nil => intro _; rfl
  | cons c rest ih =>
    cases rest with
    | nil => intro _; rfl
    | cons c2 rest2 =>
      intro h
      simp only [hasDirective, Bool.or_eq_false_iff, Bool.and_eq_false_iff] at h
      have h2 := ih h.2
      simp only [splitBrace]
      rcases h.1 with h1 | h1 <;>
        simp [h1, h2]

/-- Parsing a directive-free template yields a single literal node. -/
theorem parseTemplate_no_directive (s : String) (h : hasDirective s.data = false) :
    parseTemplate s = Except.ok [Node.text s] := by
  show parseNodesF (s.length + 1) s.data = Except.ok [Node.text s]
  rw [show s.length + 1 = s.data.length + 1 from rfl]
  simp only [parseNodesF, splitBrace_no_directive s.data h]

/-- Appending the empty string is the identity. -/
theorem string_append_empty (s : String) : s ++ "" = s := by
  show String.mk (s.data ++ []) = s
  rw [List.append_nil]

/-- Every character emitted for a digit below ten is a decimal digit
character. -/
theorem digitChar_isDigit : ∀ m : Nat, m < 10 → (digitChar m).isDigit = true := by
  intro m h
  interval_cases m <;> decide

/-- `natDigitsF` only emits decimal digit characters. -/
theorem natDigitsF_all_digits :
    ∀ (fuel n : Nat), (natDigitsF fuel n).all Char.isDigit = true := by
  intro fuel
  induction fuel with
  | zero => intro n; rfl
  | succ fuel ih =>
    intro n
    by_cases h : n < 10
    · simp [natDigitsF, h, digitChar_isDigit n h]
    · have h10 : n % 10 < 10 := Nat.mod_lt _ (by norm_num)
      simp [natDigitsF, h, List.all_append, ih (n / 10), digitChar_isDigit _ h10]

/-- `goFormatNat` produces a string of decimal digits. -/
theorem goFormatNat_digits (n : Nat) : (goFormatNat n).data.all Char.isDigit = true :=
  natDigitsF_all_digits (n + 1) n

/-- On a natural number cast into the integers, `goFormatInt` agrees
with `goFormatNat`. -/
theorem goFormatInt_ofNat (k : Nat) : goFormatInt ((k : Nat) : Int) = goFormatNat k := by
  have hk : ¬(((k : Nat) : Int) < 0) := not_lt.mpr (Int.natCast_nonneg k)
  simp [goFormatInt, hk]

/-- Any bound preserved by the default and by every in-bound parsed
override also holds for the value `getintopt` returns. -/
theorem getintopt_bound (v : String) (d : Int) (P : Int → Prop) (hd : P d)
    (h : v = "" ∨ parseInt v = none ∨ ∃ n, parseInt v = some n ∧ P n) :
    P (getintopt v d).1 := by
  unfold getintopt
  rcases h with h | h | ⟨n, hn, hP⟩
  · simp [h, hd]
  · by_cases hv : v = ""
    · simp [hv, hd]
    · simp [hv, h, hd]
  · have hv : v ≠ "" := by
      intro he
      rw [he] at hn
      simp [parseInt] at hn
    simp [hv, hn, hP]

/-- Int64 wrap-around is the identity on the int64 range. -/
theorem wrapInt64_eq_self (x : Int) (h0 : -9223372036854775808 ≤ x)
    (h1 : x < 9223372036854775808) : wrapInt64 x = x := by
  unfold wrapInt64
  rw [Int.emod_eq_of_lt (by omega) (by omega)]
  omega

/-- An angle-bracket-free text leaves the context machine in the text
state. -/
theorem scanHtmlF_no_lt :
    ∀ (fuel : Nat) (cs : List Char), hasLt cs = false →
      scanHtmlF fuel HtmlContext.text cs = HtmlContext.text := by
  intro fuel
  induction fuel with
  | zero => intro cs _; rfl
  | succ fuel ih =>
    intro cs h
    cases cs with
    | nil => rfl
    | cons c rest =>
      simp only [hasLt, Bool.or_eq_false_iff, decide_eq_false_iff_not] at h
      simp only [scanHtmlF, if_neg h.1]
      exact ih rest h.2

/-! ## Claim C1 -/

/-- Claim C1, counterexample: against the default configuration, a
record with no container descriptor makes both the name and the host
template fail to render, and `buildHeaders` then returns a header set
in which `X-Sumo-Name` (and `X-Sumo-Host`) is absent — contradicting
the claim that a render failure never causes these headers to be
absent.  (This is exactly the repository's own
`Test_buildHeaders_with_empty_message`, which expects empty
headers.) -/
theorem buildHeaders_name_header_absent_on_render_failure :
    buildHeaders msgNoContainer defaultConfig = [] ∧
    ¬ ("X-Sumo-Name" ∈ (buildHeaders msgNoContainer defaultConfig).map Prod.fst) ∧
    ¬ ("X-Sumo-Host" ∈ (buildHeaders msgNoContainer defaultConfig).map Prod.fst) := by
  decide

/-- Claim C1, amended: `buildHeaders` adds the `X-Sumo-Name` and
`X-Sumo-Host` headers only when the corresponding template renders
without error, and then with the rendered value; when rendering fails
the corresponding header is absent from the returned header set. -/
theorem buildHeaders_sets_headers_only_on_render_success :
    ∀ (msg : Message) (config : Config),
      ((renderTemplate msg config.sourceName).2 = none →
        ("X-Sumo-Name", (renderTemplate msg config.sourceName).1) ∈ buildHeaders msg config) ∧
      ((renderTemplate msg config.sourceName).2 ≠ none →
        ¬ ("X-Sumo-Name" ∈ (buildHeaders msg config).map Prod.fst)) ∧
      ((renderTemplate msg config.sourceHost).2 = none →
        ("X-Sumo-Host", (renderTemplate msg config.sourceHost).1) ∈ buildHeaders msg config) ∧
      ((renderTemplate msg config.sourceHost).2 ≠ none →
        ¬ ("X-Sumo-Host" ∈ (buildHeaders msg config).map Prod.fst)) := by
  intro msg config
  rcases hn : renderTemplate msg config.sourceName with ⟨nv, ne⟩
  rcases hh : renderTemplate msg config.sourceHost with ⟨hv, he⟩
  by_cases hc : config.sourceCategory = ""
  · cases ne <;> cases he <;> refine ⟨?_, ?_, ?_, ?_⟩ <;> intro h <;>
      first
        | (simp at h; done)
        | (simp [buildHeaders, hn, hh, addIfOk, hc]; try decide)
  · rcases hcr : renderTemplate msg config.sourceCategory with ⟨cv, ce⟩
    cases ne <;> cases he <;> cases ce <;> refine ⟨?_, ?_, ?_, ?_⟩ <;> intro h <;>
      first
        | (simp at h; done)
        | (simp [buildHeaders, hn, hh, hcr, addIfOk, hc]; try decide)

/-- Claim C1, witness: against the default configuration and a record
with a complete (all-empty) container descriptor both templates render
successfully, and the amended theorem places both headers (with the
rendered empty values) in the header set. -/
theorem buildHeaders_sets_headers_only_on_render_success_witness :
    ("X-Sumo-Name", (renderTemplate msgZero defaultConfig.sourceName).1)
        ∈ buildHeaders msgZero defaultConfig ∧
    ("X-Sumo-Host", (renderTemplate msgZero defaultConfig.sourceHost).1)
        ∈ buildHeaders msgZero defaultConfig :=
  ⟨(buildHeaders_sets_headers_only_on_render_success msgZero defaultConfig).1 (by decide),
   (buildHeaders_sets_headers_only_on_render_success msgZero defaultConfig).2.2.1 (by decide)⟩

/-! ## Claim C2 -/

/-- Claim C2, counterexample: HTTP 201 is a 2xx status, yet `sendLog`
classifies it as a non-success status error (it compares against
`http.StatusOK`, i.e. exactly 200) — contradicting the claim that any
2xx status is a success. -/
theorem sendLog_reports_error_on_2xx_non_200 :
    (200 ≤ 201 ∧ 201 < 300) ∧
    sendLogOutcome true (PostResult.response 201) ≠ DeliveryOutcome.success ∧
    sendLogOutcome true (PostResult.response 201) = DeliveryOutcome.nonSuccessStatus 201 := by
  decide

/-- Claim C2, amended: for every delivery in which an HTTP response is
received, the outcome is classified as success exactly when the status
code equals 200 (`http.StatusOK`); every other status code — including
other 2xx codes — is reported as a non-success status error carrying
that status code. -/
theorem sendLog_success_iff_status_200 :
    ∀ code : Nat,
      (sendLogOutcome true (PostResult.response code) = DeliveryOutcome.success ↔
        code = 200) ∧
      (code ≠ 200 →
        sendLogOutcome true (PostResult.response code) =
          DeliveryOutcome.nonSuccessStatus code) := by
  intro code
  by_cases h : code = 200 <;> simp [sendLogOutcome, statusOK, h]

/-- Claim C2, witness: a destination returning HTTP 500 is reported as
a non-success status error carrying 500. -/
theorem sendLog_success_iff_status_200_witness :
    sendLogOutcome true (PostResult.response 500) = DeliveryOutcome.nonSuccessStatus 500 :=
  (sendLog_success_iff_status_200 500).2 (by decide)

/-! ## Claim C3 -/

/-- Claim C3, counterexample: the override string `"-1"` for the retry
setting parses successfully and is passed through unchanged, so the
resolved configuration has `retries = -1 < 0` — contradicting the
claimed invariant `retryCount ≥ 0` for every assignment of override
values. -/
theorem buildConfig_negative_override_violates_invariant :
    (buildConfig { noOverrides with retries := "-1" } "").retries = -1 ∧
    ¬ (0 ≤ (buildConfig { noOverrides with retries := "-1" } "").retries) := by
  decide

/-- Claim C3, amended: the resolved configuration satisfies
`retries ≥ 0`, `backoff ≥ 0` and `timeout > 0` whenever each integer
override is empty/absent, fails to parse, or parses to a value itself
within the bound; a parseable out-of-bound override (e.g. a negative
integer string) is passed through unchanged and violates the
invariant. -/
theorem buildConfig_invariant_of_bounded_overrides :
    ∀ (o : Overrides) (addr : String),
      (o.retries = "" ∨ parseInt o.retries = none ∨
        ∃ n, parseInt o.retries = some n ∧ 0 ≤ n) →
      (o.backoff = "" ∨ parseInt o.backoff = none ∨
        ∃ n, parseInt o.backoff = some n ∧ 0 ≤ n) →
      (o.timeout = "" ∨ parseInt o.timeout = none ∨
        ∃ n, parseInt o.timeout = some n ∧ 0 < n) →
      0 ≤ (buildConfig o addr).retries ∧
      0 ≤ (buildConfig o addr).backoff ∧
      0 < (buildConfig o addr).timeout := by
  intro o addr h1 h2 h3
  refine ⟨?_, ?_, ?_⟩
  · exact getintopt_bound o.retries 2 (fun n => 0 ≤ n) (by norm_num) h1
  · exact getintopt_bound o.backoff 10 (fun n => 0 ≤ n) (by norm_num) h2
  · exact getintopt_bound o.timeout 10000 (fun n => 0 < n) (by norm_num) h3

/-- Claim C3, witness: with all overrides unset, the defaults 2, 10
and 10000 satisfy the invariant. -/
theorem buildConfig_invariant_of_bounded_overrides_witness :
    0 ≤ (buildConfig noOverrides "").retries ∧
    0 ≤ (buildConfig noOverrides "").backoff ∧
    0 < (buildConfig noOverrides "").timeout :=
  buildConfig_invariant_of_bounded_overrides noOverrides ""
    (Or.inl rfl) (Or.inl rfl) (Or.inl rfl)

/-! ## Claim C4 -/

/-- Claim C4: a record lacking a container descriptor makes
`buildData` fail loudly (the Go nil-pointer dereference panic,
modelled by `none`) instead of producing a degraded payload; and a
record whose container descriptor is present, complete, and has all
its string fields unset yields a body whose container string fields
(source, name, id, image, hostname) are all the empty string. -/
theorem buildData_requires_container_and_defaults_empty :
    ∀ (msg : Message),
      (msg.Container = none → buildData msg = none) ∧
      (∀ (c : DockerContainer) (cc : DockerConfig),
        msg.Container = some c → c.Config = some cc →
        c.Name = "" → c.ID = "" → cc.Image = "" → cc.Hostname = "" →
        msg.Source = "" →
        (buildData msg).map (fun d =>
            (d.Container.Source, d.Container.Name, d.Container.ID,
             d.Container.Image, d.Container.Hostname)) =
          some ("", "", "", "", "")) := by
  intro msg
  constructor
  · intro h
    simp [buildData, h]
  · intro c cc h1 h2 h3 h4 h5 h6 h7
    simp [buildData, h1, h2, h3, h4, h5, h6, h7]

/-- Claim C4, witness: at the record with no container descriptor the
build is refused, and at the all-empty complete descriptor the body's
container string fields are all empty. -/
theorem buildData_requires_container_and_defaults_empty_witness :
    buildData msgNoContainer = none ∧
    (buildData msgZero).map (fun d =>
        (d.Container.Source, d.Container.Name, d.Container.ID,
         d.Container.Image, d.Container.Hostname)) =
      some ("", "", "", "", "") :=
  ⟨(buildData_requires_container_and_defaults_empty msgNoContainer).1 rfl,
   (buildData_requires_container_and_defaults_empty msgZero).2
     { Name := "", ID := "", Config := some { Image := "", Hostname := "" } }
     { Image := "", Hostname := "" } rfl rfl rfl rfl rfl rfl rfl⟩

/-! ## Claim C5 -/

/-- Claim C5, counterexample: for an emission time one second before
the Unix epoch the body timestamp is the string `"-1000"`, which
contains a minus sign and is therefore not a string of decimal digits
— contradicting the claim for emission times before the epoch. -/
theorem buildData_pre_epoch_timestamp_not_digits :
    (buildData { msgZero with TimeNs := -1000000000 }).map Data.Timestamp =
        some "-1000" ∧
    "-1000".data.all Char.isDigit = false := by
  decide

/-- Claim C5, amended: the timestamp is the int64-wrapped `UnixNano`
value divided by one million (truncated toward zero) in decimal.  For
every record whose emission time is at or after the Unix epoch and
within the int64 nanosecond range (before 2262-04-11), it is a string
of decimal digits equal to the emission time in milliseconds since the
epoch; in particular 2018-01-02T13:00:00Z yields `"1514898000000"`.
For pre-epoch times the string carries a leading minus sign, and for
times outside the int64 nanosecond range `UnixNano` wraps — the zero
`time.Time` yields the wrapped `"-6795364578871"` that the
repository's own test fixture expects. -/
theorem buildData_timestamp_digits_of_nonneg_time :
    (∀ (msg : Message) (d : Data), buildData msg = some d →
      0 ≤ msg.TimeNs → msg.TimeNs < 9223372036854775808 →
      d.Timestamp = goFormatNat (msg.TimeNs.toNat / 1000000) ∧
      d.Timestamp.data.all Char.isDigit = true) ∧
    (buildData msg2018).map Data.Timestamp = some "1514898000000" ∧
    (buildData msgYear1).map Data.Timestamp = some "-6795364578871" := by
  refine ⟨?_, by decide, by decide⟩
  intro msg d hd hnn hlt
  rcases hc : msg.Container with _ | c
  · simp [buildData, hc] at hd
  · rcases hcc : c.Config with _ | cc
    · simp [buildData, hc, hcc] at hd
    · simp [buildData, hc, hcc] at hd
      obtain ⟨m, hm⟩ := Int.eq_ofNat_of_zero_le hnn
      have hts : d.Timestamp = goFormatInt (goDiv (wrapInt64 msg.TimeNs) 1000000) := by
        rw [← hd]
      have hw : wrapInt64 msg.TimeNs = msg.TimeNs :=
        wrapInt64_eq_self msg.TimeNs (by omega) hlt
      have hdiv : goDiv ((m : Nat) : Int) 1000000 = (((m / 1000000 : Nat)) : Int) := rfl
      rw [hts, hw, hm, hdiv, goFormatInt_ofNat]
      refine ⟨by simp, goFormatNat_digits _⟩

/-- Claim C5, witness: the amended theorem applied at the
2018-01-02T13:00:00Z record, whose emission time is within the int64
nanosecond range. -/
theorem buildData_timestamp_digits_of_nonneg_time_witness :
    d2018.Timestamp = goFormatNat (msg2018.TimeNs.toNat / 1000000) ∧
    d2018.Timestamp.data.all Char.isDigit = true :=
  buildData_timestamp_digits_of_nonneg_time.1 msg2018 d2018
    (by decide) (by decide) (by decide)

/-! ## Claim C6 -/

/-- Claim C6: rendering is a total function (it never panics) whose
failures are the parse-error and eval-error kinds; whenever an error is
returned the returned string is exactly the empty string.  A malformed
template (unclosed directive) yields a parse error, and a well-formed
template referencing a field through the absent container yields an
eval error. -/
theorem renderTemplate_error_classification :
    ∀ (msg : Message) (text : String),
      ((renderTemplate msg text).2.isSome = true → (renderTemplate msg text).1 = "") ∧
      (∃ e, renderTemplate msg "\x7b\x7b" = ("", some (RenderError.parseError e))) ∧
      (∃ e, renderTemplate msgNoContainer "\x7b\x7b.Container.Name\x7d\x7d" =
        ("", some (RenderError.evalError e))) := by
  intro msg text
  refine ⟨?_, ⟨_, rfl⟩, ⟨_, rfl⟩⟩
  rcases hp : parseTemplate text with e | nodes
  · simp [renderTemplate, hp]
  · rcases hesc : escapeCheck nodes with _ | e2
    · rcases he : executeNodes msg nodes with e3 | s <;>
        simp [renderTemplate, hp, hesc, he]
    · simp [renderTemplate, hp, hesc]

/-- Claim C6, witness: at the unclosed template the returned string is
empty. -/
theorem renderTemplate_error_classification_witness :
    (renderTemplate msgNoContainer "\x7b\x7b").1 = "" :=
  (renderTemplate_error_classification msgNoContainer "\x7b\x7b").1 (by decide)

/-! ## Claim C7 -/

/-- Claim C7, counterexample: `"<div"` contains no template directive,
yet rendering it returns an error and the empty string — the
contextual-escape analysis that `html/template` runs at the first
execution rejects a template ending inside an HTML tag (its
end-context error), so rendering is not the identity on every
directive-free text. -/
theorem renderTemplate_not_identity_on_unclosed_tag :
    hasDirective "<div".data = false ∧
    renderTemplate msgNoContainer "<div" ≠ ("<div", none) ∧
    renderTemplate msgNoContainer "<div" =
      ("", some (RenderError.evalError "ends in a non-text context")) := by
  decide

/-- Claim C7, amended: the empty template renders to the empty string
with no error, and any template text containing no template directive
and no `<` character renders to itself unchanged with no error (the
library's HTML context machine leaves the text state only at `<`); a
directive-free text that ends in a non-text HTML context is instead
rejected with an error and empty output. -/
theorem renderTemplate_identity_on_plain_literals :
    ∀ (msg : Message) (text : String),
      renderTemplate msg "" = ("", none) ∧
      (hasDirective text.data = false → hasLt text.data = false →
        renderTemplate msg text = (text, none)) := by
  intro msg text
  refine ⟨rfl, ?_⟩
  intro h hl
  unfold renderTemplate
  rw [parseTemplate_no_directive text h]
  have hesc : escapeCheck [Node.text text] = none := by
    simp [escapeCheck, escapeEnd, scanHtmlF_no_lt (text.length + 1) text.data hl]
  simp [hesc, executeNodes, string_append_empty]

/-- Claim C7, witness: a plain literal with no angle bracket renders
to itself. -/
theorem renderTemplate_identity_on_plain_literals_witness :
    hasDirective "plain literal".data = false ∧
    hasLt "plain literal".data = false ∧
    renderTemplate msgNoContainer "plain literal" = ("plain literal", none) :=
  ⟨by decide, by decide,
   (renderTemplate_identity_on_plain_literals msgNoContainer "plain literal").2
     (by decide) (by decide)⟩

/-! ## Claim C8 -/

/-- Claim C8: a present, non-empty override that fails to parse as an
integer makes `getintopt` return the built-in default and report the
failure (recoverably — the function returns rather than aborting); an
absent or empty override returns the default with no report. -/
theorem getintopt_parse_failure_uses_default :
    ∀ (value : String) (dfault : Int),
      (value ≠ "" → parseInt value = none → getintopt value dfault = (dfault, true)) ∧
      (value = "" → getintopt value dfault = (dfault, false)) := by
  intro value dfault
  constructor
  · intro hne hp
    simp [getintopt, hne, hp]
  · intro he
    simp [getintopt, he]

/-- Claim C8, witness: the non-integer override `"seven"` yields the
default 1 with a report, and the empty override yields the default
with no report (the repository's own `getintopt` tests). -/
theorem getintopt_parse_failure_uses_default_witness :
    getintopt "seven" 1 = (1, true) ∧ getintopt "" 1 = (1, false) :=
  ⟨(getintopt_parse_failure_uses_default "seven" 1).1 (by decide) (by decide),
   (getintopt_parse_failure_uses_default "" 1).2 rfl⟩

/-! ## Claim C9 -/

/-- Claim C9: the adapter renders through `html/template`, which
HTML-escapes substituted values: the container-name template rendered
against a container named `a&b` yields `a&amp;b`, not the raw field
value, and the derived `X-Sumo-Name` header carries the escaped form. -/
theorem renderTemplate_html_escapes :
    renderTemplate msgAmp "\x7b\x7b.Container.Name\x7d\x7d" = ("a&amp;b", none) ∧
    ("X-Sumo-Name", "a&amp;b") ∈ buildHeaders msgAmp cfgNameTemplate ∧
    "a&amp;b" ≠ "a&b" := by
  decide

/-! ## Claim C10 -/

/-- Claim C10: `buildData`'s effective precondition is stronger than a
non-nil container descriptor — a descriptor whose nested `Config` is
nil also makes it fail loudly (the Go nil-pointer dereference panic,
modelled by `none`) rather than produce a body with empty image and
hostname fields. -/
theorem buildData_nil_config_panics :
    ∀ (msg : Message) (c : DockerContainer),
      msg.Container = some c → c.Config = none → buildData msg = none := by
  intro msg c h1 h2
  simp [buildData, h1, h2]

/-- Claim C10, witness: the zero-value container descriptor (the
repository's `Test_buildData_with_empty_container` input) is
refused. -/
theorem buildData_nil_config_panics_witness :
    buildData msgNilConfig = none :=
  buildData_nil_config_panics msgNilConfig
    { Name := "", ID := "", Config := none } rfl rfl

end Sumologic
